import Mathlib

/-!
Verification of the PokeWorlds Deja Vu translation layer: visual state
classification (`DejaVuStateParser`), the movement drive loop
(`BaseMovementAction.move`), action-space encode/decode maps, the region
catalog merge (`_get_proper_regions`), the textual command grammar of
`DejaVuStateWiseController`, and the multi-target dictionary initialization.

The region matcher itself (`NamedScreenRegion`, `StateParser`) is an external
collaborator of the code under study: every classifier predicate consumes a
frame only through `named_region_matches_target(frame, name)` and the capture
helpers.  Frames are therefore embedded at that boundary: a classifier frame
is the function from region names to match results, and pixel-level frames
(used by `frame_changed`) are lists of integer pixel values.
-/

/-- `AgentState` enumeration from `poke_worlds/emulation/deja_vu/parsers.py`. -/
inductive AgentState where
  | FREE_ROAM
  | IN_DIALOGUE
  | IN_MENU
  | IN_PUZZLE
deriving DecidableEq, Repr

/-- A frame, seen through the region matcher: for each named region, whether
`named_region_matches_target(frame, name)` holds.  The matcher is external to
the code under study, so this is the exact interface the classifier consumes. -/
def RFrame : Type := String → Bool

/-- The two abstract capability hooks of `DejaVuStateParser` (implemented by
`BaseDejaVuStateParser` via region matches). -/
structure DejaVuHooks where
  is_in_case_notes : RFrame → Bool
  is_in_evidence_menu : RFrame → Bool

/-- `DejaVuStateParser.is_in_puzzle`: puzzle corner or deduction highlight. -/
def DejaVuStateParser.is_in_puzzle (F : RFrame) : Bool :=
  F "puzzle_menu_corner" || F "deduction_highlight"

/-- `DejaVuStateParser.is_location_menu_open`. -/
def DejaVuStateParser.is_location_menu_open (F : RFrame) : Bool :=
  F "location_menu_title"

/-- `DejaVuStateParser.is_in_menu`.  The `trust_previous` argument is accepted
but unused in the source body. -/
def DejaVuStateParser.is_in_menu (h : DejaVuHooks) (F : RFrame)
    (trust_previous : Bool := false) : Bool :=
  let _ := trust_previous
  if h.is_in_case_notes F then true
  else if h.is_in_evidence_menu F then true
  else if DejaVuStateParser.is_location_menu_open F then true
  else
    ["menu_top_left", "case_notes_title_top", "evidence_menu_header",
      "location_menu_title"].any F

/-- `DejaVuStateParser.dialogue_box_open`. -/
def DejaVuStateParser.dialogue_box_open (F : RFrame) : Bool :=
  F "dialogue_bottom_right"

/-- `DejaVuStateParser.is_in_dialogue`. -/
def DejaVuStateParser.is_in_dialogue (h : DejaVuHooks) (F : RFrame)
    (trust_previous : Bool := false) : Bool :=
  if trust_previous then F "dialogue_bottom_right"
  else if DejaVuStateParser.is_in_menu h F then false
  else if DejaVuStateParser.is_in_puzzle F then false
  else DejaVuStateParser.dialogue_box_open F

/-- `DejaVuStateParser.get_agent_state`: the mode classifier. -/
def DejaVuStateParser.get_agent_state (h : DejaVuHooks) (F : RFrame) :
    AgentState :=
  if DejaVuStateParser.is_in_puzzle F then AgentState.IN_PUZZLE
  else if DejaVuStateParser.is_in_menu h F true then AgentState.IN_MENU
  else if DejaVuStateParser.is_in_dialogue h F true then AgentState.IN_DIALOGUE
  else AgentState.FREE_ROAM

/-- The hooks as implemented by `BaseDejaVuStateParser`: case notes and
evidence menus are plain region matches. -/
def baseDejaVuHooks : DejaVuHooks where
  is_in_case_notes := fun F => F "case_notes_header_area"
  is_in_evidence_menu := fun F => F "evidence_list_top"

/-- A region catalog entry `(name, x, y, width, height)`. -/
abbrev RegionSpec := String × ℤ × ℤ × ℤ × ℤ

/-- `_get_proper_regions` from `parsers.py`: merges base regions with override
regions, giving precedence to override regions (a base region is skipped when
its name appears among the override names). -/
def _get_proper_regions (override_regions base_regions : List RegionSpec) :
    List RegionSpec :=
  if override_regions.length = 0 then base_regions
  else
    override_regions ++
      base_regions.filter
        (fun region => decide (region.1 ∉ override_regions.map Prod.fst))

/-- A pixel frame (or a captured region of one): the flattened list of integer
pixel values of the numpy array. -/
abbrev PFrame := List ℤ

/-- `frame_changed` from `actions.py`: true when the mean absolute pixel
difference between two frames exceeds `epsilon` (default `0.01`). -/
def frame_changed (past present : PFrame) (epsilon : ℚ := 1/100) : Bool :=
  decide
    ((((past.zip present).map (fun p => ((p.1 - p.2).natAbs : ℚ))).sum /
      ((past.zip present).length : ℚ)) > epsilon)

/-- The capture helpers `judge_movement` consumes.  `capture_named_region`,
`capture_grid_cells` and the grid geometry live behind the external
`StateParser`, so they are supplied as an environment; `player_cell` is the
`(0, 0)` grid cell capture and `is_uniform_quadrant` is
`BaseMovementAction._is_uniform_quadrant`. -/
structure JudgeEnv where
  capture_named_region : PFrame → String → PFrame
  is_uniform_quadrant : PFrame → String → Bool
  player_cell : PFrame → PFrame

/-- `BaseMovementAction.judge_movement`: frame-differencing classification of
one directional tick into moved `(true, none)`, rotated-in-place
`(false, some true)`, or no-effect `(false, some false)`. -/
def BaseMovementAction.judge_movement (env : JudgeEnv)
    (previous_frame current_frame : PFrame) : Bool × Option Bool :=
  if frame_changed previous_frame current_frame = false then (false, some false)
  else
    let flag :=
      ["screen_quadrant_1", "screen_quadrant_2", "screen_quadrant_3",
        "screen_quadrant_4"].any (fun quadrant =>
          let prev_quad := env.capture_named_region previous_frame quadrant
          let curr_quad := env.capture_named_region current_frame quadrant
          let prev_uniform := (prev_quad.max? == prev_quad.min?) ||
            env.is_uniform_quadrant previous_frame quadrant
          let curr_uniform := (curr_quad.max? == curr_quad.min?) ||
            env.is_uniform_quadrant current_frame quadrant
          !(frame_changed prev_quad curr_quad) && !prev_uniform &&
            !curr_uniform)
    if flag then
      if frame_changed (env.player_cell previous_frame)
          (env.player_cell current_frame) then (false, some true)
      else (false, some false)
    else (true, none)

/-- A trivial capture environment used to instantiate witnesses. -/
def trivialJudgeEnv : JudgeEnv where
  capture_named_region := fun f _ => f
  is_uniform_quadrant := fun _ _ => false
  player_cell := fun f => f

/-- One emulator tick as seen by the `BaseMovementAction.move` drive loop: the
`done` flag returned by `emulator.step`, the Movement Judge verdict
`(player_moved, player_rotated)` on the surrounding frame pair, and the
classifier mode of the post-tick frame.  The loop consumes tick `i` on its
`i`-th iteration; the emulator and judge are external, so the run is
parameterized by this tick stream. -/
structure MoveTick where
  done : Bool
  judge : Bool × Option Bool
  state : AgentState

/-- The judge verdict that stops the loop: Python's
`not player_moved and not player_rotated` (where `player_rotated` may be
`None`, `False` — both falsy — or `True`). -/
def stuckJudge (j : Bool × Option Bool) : Prop :=
  j.1 = false ∧ j.2 ≠ some true

instance (j : Bool × Option Bool) : Decidable (stuckJudge j) := by
  unfold stuckJudge; infer_instance

/-- A tick on which the drive loop carries on: not `done`, judge did not
report stuck, and the post-tick mode is still `FREE_ROAM`. -/
def tickNormal (t : MoveTick) : Prop :=
  t.done = false ∧ ¬ stuckJudge t.judge ∧ t.state = AgentState.FREE_ROAM

instance (t : MoveTick) : Decidable (tickNormal t) := by
  unfold tickNormal; infer_instance

/-- Final state of the `while` loop of `BaseMovementAction.move`: the loop
variables `agent_state`, `n_step`, `n_successful_steps`, `has_rotated`, plus
`consumed` — the number of iterations started, which equals the number of
`emulator.step` calls and of snapshots appended to
`transition_state_dicts`. -/
structure MoveLoopResult where
  agent_state : AgentState
  n_step : Nat
  n_successful_steps : Nat
  has_rotated : Option Bool
  consumed : Nat
deriving DecidableEq, Repr

/-- The `while n_step < steps and agent_state == FREE_ROAM` loop of
`BaseMovementAction.move`, with fuel `remaining = steps - n_step`.  Each
iteration either breaks (on `done`, on a stuck judge verdict, or on the mode
leaving `FREE_ROAM`) or increments `n_step` and continues; `has_rotated` is
set before the stuck-break test, and `n_successful_steps` before the mode
test, exactly as in the source. -/
def BaseMovementAction.moveLoop (ticks : Nat → MoveTick) :
    Nat → Nat → Nat → Option Bool → MoveLoopResult
  | 0, n_step, n_successful_steps, has_rotated =>
    ⟨AgentState.FREE_ROAM, n_step, n_successful_steps, has_rotated, n_step⟩
  | remaining + 1, n_step, n_successful_steps, has_rotated =>
    let t := ticks n_step
    if t.done then
      ⟨AgentState.FREE_ROAM, n_step, n_successful_steps, has_rotated,
        n_step + 1⟩
    else
      let has_rotated2 :=
        if t.judge.2 = some true then some true else has_rotated
      if stuckJudge t.judge then
        ⟨AgentState.FREE_ROAM, n_step, n_successful_steps, has_rotated2,
          n_step + 1⟩
      else
        let n_successful_steps2 :=
          if t.judge.1 then n_successful_steps + 1 else n_successful_steps
        if t.state ≠ AgentState.FREE_ROAM then
          ⟨t.state, n_step, n_successful_steps2, has_rotated2, n_step + 1⟩
        else
          BaseMovementAction.moveLoop ticks remaining (n_step + 1)
            n_successful_steps2 has_rotated2

/-- What `BaseMovementAction.move` hands back: the `action_success` code, the
`action_return` dict written into the final snapshot, and the length of the
returned snapshot list. -/
structure MoveResult where
  success : Int
  n_steps_taken : Nat
  rotated : Option Bool
  n_reports : Nat
deriving DecidableEq, Repr

/-- `BaseMovementAction.move`: run the drive loop, then derive the success
code (`2` if the mode left `FREE_ROAM`, else `-1` / `0` / `1` by comparing
`n_step` with `0` and `steps`). -/
def BaseMovementAction.move (ticks : Nat → MoveTick) (steps : Nat) :
    MoveResult :=
  let r := BaseMovementAction.moveLoop ticks steps 0 0 none
  let action_success : Int :=
    if r.agent_state ≠ AgentState.FREE_ROAM then 2
    else if r.n_step = 0 then -1
    else if r.n_step = steps then 0
    else 1
  ⟨action_success, r.n_successful_steps, r.has_rotated, r.consumed⟩

/-- `HARD_MAX_STEPS` constant from `actions.py`. -/
def HARD_MAX_STEPS : Int := 20

/-- The parameter dict returned by `MoveStepsAction.space_to_parameters`. -/
structure MoveStepsParams where
  direction : String
  steps : Int
deriving DecidableEq, Repr

/-- `MoveStepsAction.space_to_parameters`: decodes a `Discrete(80)` code into
a direction and a step count in `1..20`, or `None` out of range. -/
def MoveStepsAction.space_to_parameters (space_action : Int) :
    Option MoveStepsParams :=
  if space_action < 0 ∨ space_action ≥ 4 * HARD_MAX_STEPS then none
  else if space_action < HARD_MAX_STEPS then
    some ⟨"up", space_action + 1⟩
  else if space_action < 2 * HARD_MAX_STEPS then
    some ⟨"down", space_action - HARD_MAX_STEPS + 1⟩
  else if space_action < 3 * HARD_MAX_STEPS then
    some ⟨"left", space_action - 2 * HARD_MAX_STEPS + 1⟩
  else
    some ⟨"right", space_action - 3 * HARD_MAX_STEPS + 1⟩

/-- `MoveStepsAction.parameters_to_space`; a `none` step argument models
Python's `steps is None`. -/
def MoveStepsAction.parameters_to_space (direction : String)
    (steps : Option Int) : Option Int :=
  match steps with
  | none => none
  | some st =>
    if st ≤ 0 ∨ st > HARD_MAX_STEPS then none
    else if direction = "up" then some (st - 1)
    else if direction = "down" then some (HARD_MAX_STEPS + st - 1)
    else if direction = "left" then some (2 * HARD_MAX_STEPS + st - 1)
    else if direction = "right" then some (3 * HARD_MAX_STEPS + st - 1)
    else none

/-- The parameter dict returned by `MoveGridAction.space_to_parameters`. -/
structure MoveGridParams where
  x_steps : Int
  y_steps : Int
deriving DecidableEq, Repr

/-- `MoveGridAction.space_to_parameters`: indexes the two components of the
space vector into a dict.  There is no domain check in the source. -/
def MoveGridAction.space_to_parameters (space_action : Int × Int) :
    Option MoveGridParams :=
  some ⟨space_action.1, space_action.2⟩

/-- `MoveGridAction.parameters_to_space`: `np.zeros(2)` filled with the two
step counts. -/
def MoveGridAction.parameters_to_space (x_steps y_steps : Int) : Int × Int :=
  (x_steps, y_steps)

/-- The Box space of `MoveGridAction.get_action_space`: both components range
over `[-HARD_MAX_STEPS // 2, HARD_MAX_STEPS // 2]` = `[-10, 10]`. -/
def MoveGridAction.space_valid (v : Int × Int) : Prop :=
  -(HARD_MAX_STEPS / 2) ≤ v.1 ∧ v.1 ≤ HARD_MAX_STEPS / 2 ∧
    -(HARD_MAX_STEPS / 2) ≤ v.2 ∧ v.2 ≤ HARD_MAX_STEPS / 2

instance (v : Int × Int) : Decidable (MoveGridAction.space_valid v) := by
  unfold MoveGridAction.space_valid; infer_instance

/-- Low-level emulator inputs (`LowLevelActions` enum of
`poke_worlds.emulation`). -/
inductive LowLevelActions where
  | PRESS_ARROW_UP
  | PRESS_ARROW_DOWN
  | PRESS_ARROW_LEFT
  | PRESS_ARROW_RIGHT
  | PRESS_BUTTON_A
  | PRESS_BUTTON_B
  | PRESS_BUTTON_START
deriving DecidableEq, Repr

/-- `MenuAction._MENU_ACTION_MAP` (ordered as in the source). -/
def MENU_ACTION_MAP : List (String × LowLevelActions) :=
  [("up", LowLevelActions.PRESS_ARROW_UP),
   ("down", LowLevelActions.PRESS_ARROW_DOWN),
   ("confirm", LowLevelActions.PRESS_BUTTON_A),
   ("left", LowLevelActions.PRESS_ARROW_LEFT),
   ("right", LowLevelActions.PRESS_ARROW_RIGHT),
   ("back", LowLevelActions.PRESS_BUTTON_B)]

/-- `PuzzleAction._PUZZLE_ACTION_MAP` (identical content, separate constant in
the source). -/
def PUZZLE_ACTION_MAP : List (String × LowLevelActions) :=
  [("up", LowLevelActions.PRESS_ARROW_UP),
   ("down", LowLevelActions.PRESS_ARROW_DOWN),
   ("confirm", LowLevelActions.PRESS_BUTTON_A),
   ("left", LowLevelActions.PRESS_ARROW_LEFT),
   ("right", LowLevelActions.PRESS_ARROW_RIGHT),
   ("back", LowLevelActions.PRESS_BUTTON_B)]

/-- `MenuAction._execute`: look up the input for the sub-command, issue it
(the returned list of issued inputs), and report `0` iff the frame changed
between the pre-input capture (`current_frame`) and the last frame of the
step (`frames[-1]`).  `none` models the `KeyError` on an unknown
`menu_action`, which `is_valid` rules out upstream. -/
def MenuAction._execute (menu_action : String)
    (current_frame last_step_frame : PFrame) :
    Option (List LowLevelActions × Int) :=
  (MENU_ACTION_MAP.find? (fun kv => kv.1 == menu_action)).map
    (fun kv =>
      ([kv.2], if frame_changed current_frame last_step_frame then 0 else -1))

/-- `PuzzleAction._execute`: same shape as `MenuAction._execute`. -/
def PuzzleAction._execute (puzzle_action : String)
    (current_frame last_step_frame : PFrame) :
    Option (List LowLevelActions × Int) :=
  (PUZZLE_ACTION_MAP.find? (fun kv => kv.1 == puzzle_action)).map
    (fun kv =>
      ([kv.2], if frame_changed current_frame last_step_frame then 0 else -1))

/-- `AdvanceDialogue._execute`: presses B and returns success `0`
unconditionally — the source performs no frame comparison. -/
def AdvanceDialogue._execute : List LowLevelActions × Int :=
  ([LowLevelActions.PRESS_BUTTON_B], 0)

/-- Python strings, modelled as lists of characters. -/
abbrev PyStr := List Char

/-- Python `str.lower` (ASCII case mapping, which covers the command
grammar). -/
def pyLower (s : PyStr) : PyStr := s.map Char.toLower

/-- Python `str.strip`: drop whitespace from both ends. -/
def pyStrip (s : PyStr) : PyStr :=
  ((s.dropWhile Char.isWhitespace).reverse.dropWhile Char.isWhitespace).reverse

/-- Python `str.split(sep)` for a one-character separator: `"a(b"` splits to
`["a", "b"]`, `"("` to `["", ""]`, `""` to `[""]`. -/
def splitOnChar (c : Char) : PyStr → List PyStr
  | [] => [[]]
  | a :: rest =>
    match splitOnChar c rest with
    | [] => [[a]]
    | h :: t => if a = c then [] :: h :: t else (a :: h) :: t

/-- Python `int(s)`: optional surrounding whitespace, an optional sign, then
a nonempty run of ASCII digits; anything else raises (here: `none`).
Underscore separators and non-ASCII digits are not modelled — the command
grammar never produces them. -/
def pyInt? (s : PyStr) : Option Int :=
  let t := pyStrip s
  let core : Int × PyStr :=
    match t with
    | '+' :: rest => (1, rest)
    | '-' :: rest => (-1, rest)
    | _ => (1, t)
  if core.2 ≠ [] ∧ core.2.all Char.isDigit then
    some (core.1 *
      core.2.foldl (fun acc ch => acc * 10 + ((ch.toNat - 48 : Nat) : Int)) 0)
  else none

/-- A parsed parameter value (string or int) of the parameter dict. -/
inductive ParamValue where
  | strv (v : PyStr)
  | intv (v : Int)
deriving DecidableEq, Repr

/-- The seven action classes registered in
`DejaVuStateWiseController.ACTIONS`. -/
inductive DVAction where
  | TickUntilStable
  | MoveCursor
  | MoveGrid
  | OpenButtonMenu
  | CloseButtonMenu
  | SelectMenuOption
  | AdvanceDialogue
deriving DecidableEq, Repr

/-- The body of `string_to_high_level_action` applied to the already lowered
and stripped input: guard on both parentheses being present, extract
`action_name` (before the first `(`) and `action_args_str` (between the
first `(` and the next `)`), then dispatch on the action name.  The guard
ensures `splitOnChar` yields at least two parts, so the `getD`/`headD`
defaults are never taken. -/
def stringToActionCore (s : PyStr) :
    Option DVAction × Option (List (PyStr × ParamValue)) :=
  if '(' ∉ s ∨ ')' ∉ s then (none, none)
  else
    let action_name := pyStrip ((splitOnChar '(' s).headD [])
    let action_args_str :=
      pyStrip ((splitOnChar ')' ((splitOnChar '(' s).getD 1 [])).headD [])
    if action_name = "tickuntilstable".data then
      (some DVAction.TickUntilStable, some [])
    else if action_name = "movecursor".data then
      let direction := pyStrip action_args_str
      if direction = "up".data ∨ direction = "down".data ∨
          direction = "left".data ∨ direction = "right".data then
        (some DVAction.MoveCursor,
          some [("direction".data, ParamValue.strv direction)])
      else (none, none)
    else if action_name = "movegrid".data then
      match splitOnChar ',' action_args_str with
      | [xs, ys] =>
        match pyInt? xs, pyInt? ys with
        | some x, some y =>
          (some DVAction.MoveGrid,
            some [("x_steps".data, ParamValue.intv x),
              ("y_steps".data, ParamValue.intv y)])
        | _, _ => (none, none)
      | _ => (none, none)
    else if action_name = "openbuttonmenu".data then
      (some DVAction.OpenButtonMenu, some [])
    else if action_name = "closebuttonmenu".data then
      (some DVAction.CloseButtonMenu, some [])
    else if action_name = "selectmenuoption".data then
      (some DVAction.SelectMenuOption, some [])
    else if action_name = "advancedialogue".data then
      (some DVAction.AdvanceDialogue, some [])
    else (none, none)

/-- `DejaVuStateWiseController.string_to_high_level_action`: lower and strip
the input, then parse the flat `action_name(arg1,arg2,...)` grammar. -/
def DejaVuStateWiseController.string_to_high_level_action (input : PyStr) :
    Option DVAction × Option (List (PyStr × ParamValue)) :=
  stringToActionCore (pyStrip (pyLower input))

/-- Heap of Python list objects: cell `i` holds one list's contents.
Object identity (aliasing) is what makes `dict.copy()` shallow. -/
structure PyHeap where
  cells : List (List String)
deriving DecidableEq, Repr

/-- Read the list object at reference `i`. -/
def PyHeap.get (h : PyHeap) (i : Nat) : List String := h.cells.getD i []

/-- Mutate the list object at reference `i` in place. -/
def PyHeap.set (h : PyHeap) (i : Nat) (v : List String) : PyHeap :=
  ⟨h.cells.set i v⟩

/-- Allocate a fresh list object; returns the new heap and the reference. -/
def PyHeap.alloc (h : PyHeap) (v : List String) : PyHeap × Nat :=
  (⟨h.cells ++ [v]⟩, h.cells.length)

/-- A Python dict mapping region names to references of target lists. -/
abbrev TargetsDict := List (String × Nat)

/-- Python `k in d` / `d[k]` on the reference dict. -/
def TargetsDict.lookup (d : TargetsDict) (k : String) : Option Nat :=
  (d.find? (fun kv => kv.1 == k)).map Prod.snd

/-- Python dict assignment `d[k] = i`: rebind in place or append. -/
def TargetsDict.setKey (d : TargetsDict) (k : String) (i : Nat) :
    TargetsDict :=
  match d with
  | [] => [(k, i)]
  | kv :: rest =>
    if kv.1 = k then (k, i) :: rest else kv :: TargetsDict.setKey rest k i

/-- The multi-target dictionary manipulation of `DejaVuStateParser.__init__`:
`multi_targets = self.COMMON_MULTI_TARGETS.copy()` copies the dict but keeps
the references to the shared target-list objects; every override key already
present is handled by `multi_targets[key].extend(...)`, which mutates the
shared list on the heap; an absent key is bound to the override list; finally
`menu_box_strip` gets `"cursor_on_options"` appended (or freshly bound when
absent).  Returns the mutated heap and the local `multi_targets` dict. -/
def initMultiTargets (heap : PyHeap) (classDict : TargetsDict)
    (override_multi_targets : List (String × List String)) :
    PyHeap × TargetsDict :=
  let step := override_multi_targets.foldl
    (fun (acc : PyHeap × TargetsDict) kv =>
      match TargetsDict.lookup acc.2 kv.1 with
      | some i => (acc.1.set i (acc.1.get i ++ kv.2), acc.2)
      | none =>
        let hn := acc.1.alloc kv.2
        (hn.1, acc.2.setKey kv.1 hn.2))
    (heap, classDict)
  match TargetsDict.lookup step.2 "menu_box_strip" with
  | none =>
    let hn := step.1.alloc ["cursor_on_options"]
    (hn.1, step.2.setKey "menu_box_strip" hn.2)
  | some i => (step.1.set i (step.1.get i ++ ["cursor_on_options"]), step.2)

/-- The pristine `COMMON_MULTI_TARGETS` heap: cells 0, 1, 2 hold the target
lists of `clue_text_area`, `verdict_announcement`, `puzzle_menu_corner`. -/
def commonMultiTargetsHeap : PyHeap :=
  ⟨[["clue_acquired", "wrong_verdict", "correct_verdict",
      "suspect_alibi_confirmed"],
    ["case_solved", "case_failed", "new_case_available"],
    ["puzzle_active", "puzzle_hint_available"]]⟩

/-- The class-level `COMMON_MULTI_TARGETS` dict binding. -/
def commonMultiTargetsDict : TargetsDict :=
  [("clue_text_area", 0), ("verdict_announcement", 1),
    ("puzzle_menu_corner", 2)]

/-- The `override_multi_targets` dict built by
`DejaVu1And2StateParser.__init__`. -/
def dejaVu12OverrideMultiTargets : List (String × List String) :=
  [("clue_text_area",
    ["clue_obtained", "suspect_questioned", "alibi_verified",
      "contradiction_found"]),
   ("verdict_announcement",
    ["correct_solution", "wrong_accusation", "case_incomplete",
      "case_passed"])]

/-- Claim C1: `get_agent_state` is total — it returns exactly one of the four
modes — and follows the fixed precedence puzzle > menu > dialogue > free roam;
in particular whenever `is_in_puzzle` holds the result is `IN_PUZZLE`
regardless of the menu and dialogue indicators. -/
theorem c1_get_agent_state_total_and_precedence (h : DejaVuHooks) (F : RFrame) :
    (DejaVuStateParser.get_agent_state h F = AgentState.IN_PUZZLE ∨
      DejaVuStateParser.get_agent_state h F = AgentState.IN_MENU ∨
      DejaVuStateParser.get_agent_state h F = AgentState.IN_DIALOGUE ∨
      DejaVuStateParser.get_agent_state h F = AgentState.FREE_ROAM) ∧
    (DejaVuStateParser.is_in_puzzle F = true →
      DejaVuStateParser.get_agent_state h F = AgentState.IN_PUZZLE) ∧
    (DejaVuStateParser.is_in_puzzle F = false →
      DejaVuStateParser.is_in_menu h F true = true →
      DejaVuStateParser.get_agent_state h F = AgentState.IN_MENU) ∧
    (DejaVuStateParser.is_in_puzzle F = false →
      DejaVuStateParser.is_in_menu h F true = false →
      DejaVuStateParser.is_in_dialogue h F true = true →
      DejaVuStateParser.get_agent_state h F = AgentState.IN_DIALOGUE) ∧
    (DejaVuStateParser.is_in_puzzle F = false →
      DejaVuStateParser.is_in_menu h F true = false →
      DejaVuStateParser.is_in_dialogue h F true = false →
      DejaVuStateParser.get_agent_state h F = AgentState.FREE_ROAM) := by
  refine ⟨?_, ?_, ?_, ?_, ?_⟩ <;>
    simp only [DejaVuStateParser.get_agent_state]
  · by_cases hp : DejaVuStateParser.is_in_puzzle F = true <;>
      by_cases hm : DejaVuStateParser.is_in_menu h F true = true <;>
      by_cases hd : DejaVuStateParser.is_in_dialogue h F true = true <;>
      simp [hp, hm, hd]
  · intro hp; simp [hp]
  · intro hp hm; simp [hp, hm]
  · intro hp hm hd; simp [hp, hm, hd]
  · intro hp hm hd; simp [hp, hm, hd]

/-- Witness for C1: a frame on which every indicator region matches is
classified `IN_PUZZLE` (puzzle wins every overlap), and a frame on which no
region matches is classified `FREE_ROAM`. -/
theorem c1_witness :
    DejaVuStateParser.get_agent_state baseDejaVuHooks (fun _ => true) =
      AgentState.IN_PUZZLE ∧
    DejaVuStateParser.get_agent_state baseDejaVuHooks (fun _ => false) =
      AgentState.FREE_ROAM :=
  ⟨(c1_get_agent_state_total_and_precedence baseDejaVuHooks
      (fun _ => true)).2.1 rfl,
    (c1_get_agent_state_total_and_precedence baseDejaVuHooks
      (fun _ => false)).2.2.2.2 rfl rfl rfl⟩

/-- Claim C6: when the checks that the fast path skips would have failed anyway
(no menu, no puzzle), `is_in_dialogue` agrees between `trust_previous = true`
and `trust_previous = false`. -/
theorem c6_is_in_dialogue_trust_previous_consistent (h : DejaVuHooks)
    (F : RFrame)
    (hm : DejaVuStateParser.is_in_menu h F = false)
    (hp : DejaVuStateParser.is_in_puzzle F = false) :
    DejaVuStateParser.is_in_dialogue h F true =
      DejaVuStateParser.is_in_dialogue h F false := by
  simp [DejaVuStateParser.is_in_dialogue, hm, hp,
    DejaVuStateParser.dialogue_box_open]

/-- Witness for C6: on the all-blank frame neither menu nor puzzle indicators
match, and the two dialogue paths agree. -/
theorem c6_witness :
    DejaVuStateParser.is_in_menu baseDejaVuHooks (fun _ => false) = false ∧
    DejaVuStateParser.is_in_puzzle (fun _ => false) = false ∧
    DejaVuStateParser.is_in_dialogue baseDejaVuHooks (fun _ => false) true =
      DejaVuStateParser.is_in_dialogue baseDejaVuHooks (fun _ => false) false :=
  ⟨rfl, rfl,
    c6_is_in_dialogue_trust_previous_consistent baseDejaVuHooks
      (fun _ => false) rfl rfl⟩

/-- Claim C5: the merged catalog keeps, for each name appearing in the
override list, exactly the override entries of that name; keeps every base
entry whose name is not overridden unchanged; contains nothing else; and the
merge is invariant (up to permutation) under reordering of either input
list. -/
theorem c5_get_proper_regions_override_law :
    (∀ (O B : List RegionSpec) (n : String),
      (_get_proper_regions O B).filter (fun r => r.1 == n) =
        if n ∈ O.map Prod.fst then O.filter (fun r => r.1 == n)
        else B.filter (fun r => r.1 == n)) ∧
    (∀ (O O' B B' : List RegionSpec), O.Perm O' → B.Perm B' →
      (_get_proper_regions O B).Perm (_get_proper_regions O' B')) := by
  constructor
  · intro O B n
    by_cases hO : O.length = 0
    · have h0 : O = [] := List.length_eq_zero.mp hO
      subst h0
      simp [_get_proper_regions]
    · simp only [_get_proper_regions, if_neg hO, List.filter_append]
      by_cases hn : n ∈ O.map Prod.fst
      · rw [if_pos hn]
        have h2 :
            (B.filter
              (fun r => decide (r.1 ∉ O.map Prod.fst))).filter
                (fun r => r.1 == n) = [] := by
          rw [List.filter_filter]
          apply List.filter_eq_nil_iff.mpr
          intro r _ hc
          simp only [Bool.and_eq_true, beq_iff_eq, decide_eq_true_eq] at hc
          exact hc.2 (hc.1 ▸ hn)
        rw [h2, List.append_nil]
      · rw [if_neg hn]
        have h1 : O.filter (fun r => r.1 == n) = [] := by
          apply List.filter_eq_nil_iff.mpr
          intro r hr hc
          simp only [beq_iff_eq] at hc
          exact hn (hc ▸ List.mem_map_of_mem Prod.fst hr)
        have h2 :
            (B.filter
              (fun r => decide (r.1 ∉ O.map Prod.fst))).filter
                (fun r => r.1 == n) =
              B.filter (fun r => r.1 == n) := by
          rw [List.filter_filter]
          apply List.filter_congr
          intro r _
          by_cases hc : r.1 = n
          · have hd : decide (r.1 ∉ O.map Prod.fst) = true := by
              simp only [decide_eq_true_eq]
              exact fun hmem => hn (hc ▸ hmem)
            rw [hd, Bool.and_true]
          · simp [hc]
        rw [h1, h2, List.nil_append]
  · intro O O' B B' hOp hBp
    by_cases hO : O.length = 0
    · have h0 : O = [] := List.length_eq_zero.mp hO
      have h0' : O' = [] := by
        apply List.length_eq_zero.mp
        rw [← hOp.length_eq, hO]
      subst h0; subst h0'
      simpa [_get_proper_regions] using hBp
    · have hO' : ¬ O'.length = 0 := by
        rw [← hOp.length_eq]; exact hO
      simp only [_get_proper_regions, if_neg hO, if_neg hO']
      refine hOp.append ?_
      have step1 :
          (B.filter (fun r => decide (r.1 ∉ O.map Prod.fst))).Perm
            (B'.filter (fun r => decide (r.1 ∉ O.map Prod.fst))) :=
        hBp.filter _
      have step2 :
          B'.filter (fun r => decide (r.1 ∉ O.map Prod.fst)) =
            B'.filter (fun r => decide (r.1 ∉ O'.map Prod.fst)) := by
        apply List.filter_congr
        intro r _
        have hmem : (r.1 ∈ O.map Prod.fst) ↔ (r.1 ∈ O'.map Prod.fst) :=
          (hOp.map Prod.fst).mem_iff
        exact decide_eq_decide.mpr (not_congr hmem)
      exact step2 ▸ step1

/-- Witness for C5: merging with a reordered override list yields a
permutation of the original merge. -/
theorem c5_witness :
    (_get_proper_regions
      [("a", 1, 1, 1, 1), ("b", 2, 2, 2, 2)]
      [("a", 9, 9, 9, 9), ("c", 3, 3, 3, 3)]).Perm
    (_get_proper_regions
      [("b", 2, 2, 2, 2), ("a", 1, 1, 1, 1)]
      [("a", 9, 9, 9, 9), ("c", 3, 3, 3, 3)]) :=
  c5_get_proper_regions_override_law.2 _ _ _ _
    (List.Perm.swap _ _ _) (List.Perm.refl _)

/-- The summed absolute pixel difference of a frame against itself is zero. -/
theorem sum_abs_diff_self (F : PFrame) :
    (((F.zip F).map (fun p => ((p.1 - p.2).natAbs : ℚ))).sum) = 0 := by
  induction F with
  | nil => simp
  | cons a t ih => simp [List.zip_cons_cons, ih]

/-- `frame_changed` never fires on two identical frames. -/
theorem frame_changed_self (F : PFrame) : frame_changed F F = false := by
  simp only [frame_changed, sum_abs_diff_self, zero_div, decide_eq_false_iff_not,
    not_lt]
  norm_num

/-- Unfolding one iteration that carries on (not done, judge not stuck, mode
still `FREE_ROAM`). -/
theorem moveLoop_step_normal (ticks : Nat → MoveTick) (m n_step n_succ : Nat)
    (rot : Option Bool) (hd : (ticks n_step).done = false)
    (hs : ¬ stuckJudge (ticks n_step).judge)
    (hst : (ticks n_step).state = AgentState.FREE_ROAM) :
    BaseMovementAction.moveLoop ticks (m + 1) n_step n_succ rot =
      BaseMovementAction.moveLoop ticks m (n_step + 1)
        (if (ticks n_step).judge.1 = true then n_succ + 1 else n_succ)
        (if (ticks n_step).judge.2 = some true then some true else rot) := by
  simp only [BaseMovementAction.moveLoop]
  rw [if_neg (by simp [hd]), if_neg hs, if_neg (by simp [hst])]

/-- Unfolding one iteration that breaks on the emulator `done` flag. -/
theorem moveLoop_step_done (ticks : Nat → MoveTick) (m n_step n_succ : Nat)
    (rot : Option Bool) (hd : (ticks n_step).done = true) :
    BaseMovementAction.moveLoop ticks (m + 1) n_step n_succ rot =
      ⟨AgentState.FREE_ROAM, n_step, n_succ, rot, n_step + 1⟩ := by
  simp only [BaseMovementAction.moveLoop]
  rw [if_pos hd]

/-- Unfolding one iteration that breaks on a stuck judge verdict. -/
theorem moveLoop_step_stuck (ticks : Nat → MoveTick) (m n_step n_succ : Nat)
    (rot : Option Bool) (hd : (ticks n_step).done = false)
    (hs : stuckJudge (ticks n_step).judge) :
    BaseMovementAction.moveLoop ticks (m + 1) n_step n_succ rot =
      ⟨AgentState.FREE_ROAM, n_step, n_succ, rot, n_step + 1⟩ := by
  simp only [BaseMovementAction.moveLoop]
  rw [if_neg (by simp [hd]), if_pos hs, if_neg hs.2]

/-- Unfolding one iteration that breaks because the mode left `FREE_ROAM`. -/
theorem moveLoop_step_divert (ticks : Nat → MoveTick) (m n_step n_succ : Nat)
    (rot : Option Bool) (hd : (ticks n_step).done = false)
    (hs : ¬ stuckJudge (ticks n_step).judge)
    (hst : (ticks n_step).state ≠ AgentState.FREE_ROAM) :
    BaseMovementAction.moveLoop ticks (m + 1) n_step n_succ rot =
      ⟨(ticks n_step).state, n_step,
        (if (ticks n_step).judge.1 = true then n_succ + 1 else n_succ),
        (if (ticks n_step).judge.2 = some true then some true else rot),
        n_step + 1⟩ := by
  simp only [BaseMovementAction.moveLoop]
  rw [if_neg (by simp [hd]), if_neg hs, if_pos hst]

/-- A run whose first `rem` ticks all carry on exits the loop normally with
`n_step = n_step + rem`. -/
theorem moveLoop_normal_run (ticks : Nat → MoveTick) :
    ∀ (rem n_step n_succ : Nat) (rot : Option Bool),
      (∀ i, n_step ≤ i → i < n_step + rem → tickNormal (ticks i)) →
      (BaseMovementAction.moveLoop ticks rem n_step n_succ rot).agent_state =
          AgentState.FREE_ROAM ∧
        (BaseMovementAction.moveLoop ticks rem n_step n_succ rot).n_step =
          n_step + rem ∧
        (BaseMovementAction.moveLoop ticks rem n_step n_succ rot).consumed =
          n_step + rem := by
  intro rem
  induction rem with
  | zero =>
    intro n_step n_succ rot _
    simp [BaseMovementAction.moveLoop]
  | succ m ih =>
    intro n_step n_succ rot h
    obtain ⟨hd, hs, hst⟩ := h n_step (Nat.le_refl _) (by omega)
    rw [moveLoop_step_normal ticks m n_step n_succ rot hd hs hst]
    obtain ⟨h1, h2, h3⟩ := ih (n_step + 1) _ _
      (fun i hi1 hi2 => h i (by omega) (by omega))
    exact ⟨h1, by omega, by omega⟩

/-- Skipping a prefix of `j` carrying-on ticks: the run equals some run
started at `n_step + j` with `j` less fuel. -/
theorem moveLoop_skip_normal_prefix (ticks : Nat → MoveTick) :
    ∀ (j rem n_step n_succ : Nat) (rot : Option Bool), j ≤ rem →
      (∀ i, n_step ≤ i → i < n_step + j → tickNormal (ticks i)) →
      ∃ (n_succ2 : Nat) (rot2 : Option Bool),
        BaseMovementAction.moveLoop ticks rem n_step n_succ rot =
          BaseMovementAction.moveLoop ticks (rem - j) (n_step + j) n_succ2
            rot2 := by
  intro j
  induction j with
  | zero =>
    intro rem n_step n_succ rot _ _
    exact ⟨n_succ, rot, by simp⟩
  | succ m ih =>
    intro rem n_step n_succ rot hle h
    obtain ⟨rem2, rfl⟩ : ∃ rem2, rem = rem2 + 1 := ⟨rem - 1, by omega⟩
    obtain ⟨hd, hs, hst⟩ := h n_step (Nat.le_refl _) (by omega)
    rw [moveLoop_step_normal ticks rem2 n_step n_succ rot hd hs hst]
    obtain ⟨a, b, hab⟩ := ih rem2 (n_step + 1) _ _ (by omega)
      (fun i h1 h2 => h i (by omega) (by omega))
    refine ⟨a, b, ?_⟩
    rw [hab]
    have e1 : rem2 + 1 - (m + 1) = rem2 - m := by omega
    have e2 : n_step + (m + 1) = n_step + 1 + m := by omega
    rw [e1, e2]

/-- Bookkeeping of the loop: `n_successful_steps` counts exactly the judged
ticks reported as movement, and `has_rotated` is set exactly when some judged
tick reported a pure rotation (a final `done` tick is consumed but never
judged). -/
theorem moveLoop_counts (ticks : Nat → MoveTick) :
    ∀ (rem n_step n_succ : Nat) (rot : Option Bool),
      n_step ≤
        (BaseMovementAction.moveLoop ticks rem n_step n_succ rot).consumed ∧
      (BaseMovementAction.moveLoop ticks rem n_step n_succ
            rot).n_successful_steps = n_succ +
        ((List.range' n_step
            ((BaseMovementAction.moveLoop ticks rem n_step n_succ
              rot).consumed - n_step)).filter
          (fun i => !(ticks i).done && (ticks i).judge.1)).length ∧
      (BaseMovementAction.moveLoop ticks rem n_step n_succ rot).has_rotated =
        (if (List.range' n_step
            ((BaseMovementAction.moveLoop ticks rem n_step n_succ
              rot).consumed - n_step)).any
            (fun i => !(ticks i).done && ((ticks i).judge.2 == some true))
          then some true else rot) := by
  intro rem
  induction rem with
  | zero =>
    intro n_step n_succ rot
    simp [BaseMovementAction.moveLoop]
  | succ m ih =>
    intro n_step n_succ rot
    by_cases hd : (ticks n_step).done = true
    · rw [moveLoop_step_done ticks m n_step n_succ rot hd]
      simp [hd, List.range'_one]
    · rw [Bool.not_eq_true] at hd
      by_cases hs : stuckJudge (ticks n_step).judge
      · rw [moveLoop_step_stuck ticks m n_step n_succ rot hd hs]
        have hb : ((ticks n_step).judge.2 == some true) = false :=
          beq_eq_false_iff_ne.mpr hs.2
        simp [hd, hs.1, hb, List.range'_one]
      · by_cases hst : (ticks n_step).state = AgentState.FREE_ROAM
        · rw [moveLoop_step_normal ticks m n_step n_succ rot hd hs hst]
          obtain ⟨ihc, ihn, ihr⟩ := ih (n_step + 1)
            (if (ticks n_step).judge.1 = true then n_succ + 1 else n_succ)
            (if (ticks n_step).judge.2 = some true then some true else rot)
          set r := BaseMovementAction.moveLoop ticks m (n_step + 1)
            (if (ticks n_step).judge.1 = true then n_succ + 1 else n_succ)
            (if (ticks n_step).judge.2 = some true then some true else rot)
            with hr
          have hwin : List.range' n_step (r.consumed - n_step) =
              n_step :: List.range' (n_step + 1) (r.consumed - (n_step + 1)) := by
            have e : r.consumed - n_step = (r.consumed - (n_step + 1)) + 1 := by
              omega
            rw [e, List.range'_succ]
          refine ⟨by omega, ?_, ?_⟩
          · rw [hwin, List.filter_cons]
            by_cases hj : (ticks n_step).judge.1 = true
            · simp only [hd, hj, Bool.not_false, Bool.true_and, if_pos]
              simp only [List.length_cons]
              rw [if_pos hj] at ihn
              omega
            · have hj2 : (ticks n_step).judge.1 = false := by
                revert hj; cases (ticks n_step).judge.1 <;> simp
              simp only [hd, hj2, Bool.not_false, Bool.true_and, Bool.and_false,
                if_neg (by simp : ¬ (false = true))]
              rw [if_neg (by simp [hj2] : ¬ ((ticks n_step).judge.1 = true))]
                at ihn
              omega
          · rw [hwin, List.any_cons]
            by_cases hj : (ticks n_step).judge.2 = some true
            · have hbt : ((ticks n_step).judge.2 == some true) = true := by
                simp [hj]
              rw [if_pos hj] at ihr
              simp only [hd, hbt, Bool.not_false, Bool.true_and, Bool.true_or,
                if_pos rfl]
              rw [ihr]
              exact ite_self _
            · have hbt : ((ticks n_step).judge.2 == some true) = false :=
                beq_eq_false_iff_ne.mpr hj
              rw [if_neg hj] at ihr
              simp only [hd, hbt, Bool.not_false, Bool.true_and, Bool.false_or]
              exact ihr
        · rw [moveLoop_step_divert ticks m n_step n_succ rot hd hs hst]
          have e : n_step + 1 - n_step = 1 := by omega
          simp only [e, List.range'_one]
          constructor
          · omega
          constructor
          · by_cases hj : (ticks n_step).judge.1 = true
            · simp [hd, hj]
            · have hj2 : (ticks n_step).judge.1 = false := by
                revert hj; cases (ticks n_step).judge.1 <;> simp
              simp [hd, hj2]
          · by_cases hj : (ticks n_step).judge.2 = some true
            · simp [hd, hj]
            · have hbt : ((ticks n_step).judge.2 == some true) = false :=
                beq_eq_false_iff_ne.mpr hj
              simp [hd, hj, hbt]

/-- Claim C7: the Movement Judge reports neither movement nor rotation on two
identical frames, and more generally whenever no pixel region differs beyond
the epsilon threshold (`frame_changed` is false). -/
theorem c7_judge_movement_identical_frames (env : JudgeEnv) (F : PFrame) :
    BaseMovementAction.judge_movement env F F = (false, some false) ∧
    (∀ p c : PFrame, frame_changed p c = false →
      BaseMovementAction.judge_movement env p c = (false, some false)) := by
  constructor
  · simp only [BaseMovementAction.judge_movement]
    rw [if_pos (frame_changed_self F)]
  · intro p c h
    simp only [BaseMovementAction.judge_movement]
    rw [if_pos h]

/-- Witness for C7: the general clause applied to a concrete frame pair. -/
theorem c7_witness :
    BaseMovementAction.judge_movement trivialJudgeEnv [0, 1, 2] [0, 1, 2] =
      (false, some false) :=
  (c7_judge_movement_identical_frames trivialJudgeEnv [0, 1, 2]).2
    [0, 1, 2] [0, 1, 2] (frame_changed_self [0, 1, 2])

/-- Projection of the success code through `BaseMovementAction.move`. -/
theorem move_success_eq (ticks : Nat → MoveTick) (steps : Nat) :
    (BaseMovementAction.move ticks steps).success =
      (if (BaseMovementAction.moveLoop ticks steps 0 0 none).agent_state ≠
          AgentState.FREE_ROAM then 2
        else if (BaseMovementAction.moveLoop ticks steps 0 0 none).n_step = 0
          then -1
        else if (BaseMovementAction.moveLoop ticks steps 0 0 none).n_step =
          steps then 0
        else 1) := rfl

/-- Projection of `action_return["n_steps_taken"]`. -/
theorem move_taken_eq (ticks : Nat → MoveTick) (steps : Nat) :
    (BaseMovementAction.move ticks steps).n_steps_taken =
      (BaseMovementAction.moveLoop ticks steps 0 0 none).n_successful_steps :=
  rfl

/-- Projection of `action_return["rotated"]`. -/
theorem move_rotated_eq (ticks : Nat → MoveTick) (steps : Nat) :
    (BaseMovementAction.move ticks steps).rotated =
      (BaseMovementAction.moveLoop ticks steps 0 0 none).has_rotated := rfl

/-- Projection of the snapshot count. -/
theorem move_reports_eq (ticks : Nat → MoveTick) (steps : Nat) :
    (BaseMovementAction.move ticks steps).n_reports =
      (BaseMovementAction.moveLoop ticks steps 0 0 none).consumed := rfl

/-- Claim C2: for `move(direction, N)` with `N ≥ 1` starting in `FREE_ROAM`,
the success code is `0` when all `N` ticks carry on in `FREE_ROAM`, `1` when
a stuck judge verdict stops the loop after at least one counted tick, `2`
when the mode changes away from `FREE_ROAM` before finishing, `-1` when the
run stops before any tick is counted; and the final snapshot's
`action_return` carries the count of ticks judged as actual movement and
whether any pure rotation occurred. -/
theorem c2_move_success_codes (ticks : Nat → MoveTick) (steps : Nat)
    (hsteps : 1 ≤ steps) :
    ((∀ i, i < steps → tickNormal (ticks i)) →
      (BaseMovementAction.move ticks steps).success = 0) ∧
    (∀ k, 1 ≤ k → k < steps → (∀ i, i < k → tickNormal (ticks i)) →
      (ticks k).done = false → stuckJudge (ticks k).judge →
      (BaseMovementAction.move ticks steps).success = 1) ∧
    (∀ k, k < steps → (∀ i, i < k → tickNormal (ticks i)) →
      (ticks k).done = false → ¬ stuckJudge (ticks k).judge →
      (ticks k).state ≠ AgentState.FREE_ROAM →
      (BaseMovementAction.move ticks steps).success = 2) ∧
    (((ticks 0).done = true ∨
        ((ticks 0).done = false ∧ stuckJudge (ticks 0).judge)) →
      (BaseMovementAction.move ticks steps).success = -1) ∧
    (BaseMovementAction.move ticks steps).n_steps_taken =
      ((List.range (BaseMovementAction.move ticks steps).n_reports).filter
        (fun i => !(ticks i).done && (ticks i).judge.1)).length ∧
    (BaseMovementAction.move ticks steps).rotated =
      (if (List.range (BaseMovementAction.move ticks steps).n_reports).any
          (fun i => !(ticks i).done && ((ticks i).judge.2 == some true))
        then some true else none) := by
  refine ⟨?_, ?_, ?_, ?_, ?_, ?_⟩
  · intro h
    obtain ⟨h1, h2, h3⟩ := moveLoop_normal_run ticks steps 0 0 none
      (fun i hi1 hi2 => h i (by omega))
    rw [move_success_eq, h1, h2]
    split_ifs with a b c
    · exact absurd rfl a
    · omega
    · rfl
    · exact absurd (by omega) c
  · intro k hk1 hk2 h hkd hks
    obtain ⟨a, b, hab⟩ := moveLoop_skip_normal_prefix ticks k steps 0 0 none
      (by omega) (fun i hi1 hi2 => h i (by omega))
    obtain ⟨m, hm⟩ : ∃ m, steps - k = m + 1 := ⟨steps - k - 1, by omega⟩
    rw [move_success_eq, hab, hm,
      moveLoop_step_stuck ticks m (0 + k) a b (by simpa using hkd)
        (by simpa using hks)]
    dsimp only
    split_ifs with x y z
    · exact absurd rfl x
    · omega
    · omega
    · rfl
  · intro k hk2 h hkd hks hkst
    obtain ⟨a, b, hab⟩ := moveLoop_skip_normal_prefix ticks k steps 0 0 none
      (by omega) (fun i hi1 hi2 => h i (by omega))
    obtain ⟨m, hm⟩ : ∃ m, steps - k = m + 1 := ⟨steps - k - 1, by omega⟩
    rw [move_success_eq, hab, hm,
      moveLoop_step_divert ticks m (0 + k) a b (by simpa using hkd)
        (by simpa using hks) (by simpa using hkst)]
    dsimp only
    rw [if_pos (by simpa using hkst)]
  · intro hcase
    obtain ⟨m, rfl⟩ : ∃ m, steps = m + 1 := ⟨steps - 1, by omega⟩
    rcases hcase with hdone | ⟨hdone, hstuck⟩
    · rw [move_success_eq, moveLoop_step_done ticks m 0 0 none hdone]
      dsimp only
      split_ifs with x y z
      · exact absurd rfl x
      · rfl
      · exact absurd rfl y
      · exact absurd rfl y
    · rw [move_success_eq, moveLoop_step_stuck ticks m 0 0 none hdone hstuck]
      dsimp only
      split_ifs with x y z
      · exact absurd rfl x
      · rfl
      · exact absurd rfl y
      · exact absurd rfl y
  · obtain ⟨hc0, hn, hr⟩ := moveLoop_counts ticks steps 0 0 none
    rw [move_taken_eq, move_reports_eq, hn, List.range_eq_range',
      Nat.sub_zero, Nat.zero_add]
  · obtain ⟨hc0, hn, hr⟩ := moveLoop_counts ticks steps 0 0 none
    rw [move_rotated_eq, move_reports_eq, hr, List.range_eq_range',
      Nat.sub_zero]

/-- Witness for C2: concrete runs hitting each of the four success codes. -/
theorem c2_witness :
    (BaseMovementAction.move
      (fun _ => ⟨false, (true, none), AgentState.FREE_ROAM⟩) 2).success = 0 ∧
    (BaseMovementAction.move
      (fun i => if i < 1 then ⟨false, (true, none), AgentState.FREE_ROAM⟩
        else ⟨false, (false, some false), AgentState.FREE_ROAM⟩) 3).success =
      1 ∧
    (BaseMovementAction.move
      (fun i => if i < 1 then ⟨false, (true, none), AgentState.FREE_ROAM⟩
        else ⟨false, (true, none), AgentState.IN_DIALOGUE⟩) 3).success = 2 ∧
    (BaseMovementAction.move
      (fun _ => ⟨true, (false, none), AgentState.FREE_ROAM⟩) 1).success =
      -1 := by
  refine ⟨?_, ?_, ?_, ?_⟩
  · exact (c2_move_success_codes _ 2 (by decide)).1 (fun i _ => by decide)
  · exact (c2_move_success_codes _ 3 (by decide)).2.1 1 (by decide) (by decide)
      (fun i hi => by rw [if_pos hi]; decide) (by decide) (by decide)
  · exact (c2_move_success_codes _ 3 (by decide)).2.2.1 1 (by decide)
      (fun i hi => by rw [if_pos hi]; decide) (by decide) (by decide)
      (by decide)
  · exact (c2_move_success_codes _ 1 (by decide)).2.2.2.1 (Or.inl rfl)

/-- Claim C10: a rotation-only tick never stops the loop and is counted
toward the step budget but not toward `n_successful_steps`; a run of `N ≥ 1`
ticks all judged as pure rotation ends with success code `0`,
`n_steps_taken = 0` and `rotated = True`. -/
theorem c10_rotation_only_run_completes (ticks : Nat → MoveTick)
    (steps : Nat) (hsteps : 1 ≤ steps)
    (h : ∀ i, i < steps → (ticks i).done = false ∧
      (ticks i).judge = (false, some true) ∧
      (ticks i).state = AgentState.FREE_ROAM) :
    (BaseMovementAction.move ticks steps).success = 0 ∧
    (BaseMovementAction.move ticks steps).n_steps_taken = 0 ∧
    (BaseMovementAction.move ticks steps).rotated = some true := by
  have hnorm : ∀ i, 0 ≤ i → i < 0 + steps → tickNormal (ticks i) := by
    intro i _ hi
    obtain ⟨h1, h2, h3⟩ := h i (by omega)
    refine ⟨h1, ?_, h3⟩
    intro hstuck
    rw [h2] at hstuck
    exact hstuck.2 rfl
  obtain ⟨ha, hb, hc⟩ := moveLoop_normal_run ticks steps 0 0 none hnorm
  obtain ⟨hc0, hn, hr⟩ := moveLoop_counts ticks steps 0 0 none
  refine ⟨?_, ?_, ?_⟩
  · rw [move_success_eq, ha, hb]
    split_ifs with a b c
    · exact absurd rfl a
    · omega
    · rfl
    · exact absurd (by omega) c
  · rw [move_taken_eq, hn, hc, Nat.sub_zero, Nat.zero_add]
    have hfil : (List.range' 0 (0 + steps)).filter
        (fun i => !(ticks i).done && (ticks i).judge.1) = [] := by
      apply List.filter_eq_nil_iff.mpr
      intro i hi hpi
      have hmem := List.mem_range'_1.mp hi
      obtain ⟨h1, h2, h3⟩ := h i (by omega)
      simp [h1, h2] at hpi
    rw [hfil]
    rfl
  · rw [move_rotated_eq, hr, hc, Nat.sub_zero]
    have hany : (List.range' 0 (0 + steps)).any
        (fun i => !(ticks i).done && ((ticks i).judge.2 == some true)) =
          true := by
      apply List.any_eq_true.mpr
      refine ⟨0, List.mem_range'_1.mpr ⟨Nat.le_refl 0, by omega⟩, ?_⟩
      obtain ⟨h1, h2, h3⟩ := h 0 (by omega)
      simp [h1, h2]
    rw [hany]
    rfl

/-- Witness for C10: two rotation-only ticks complete a two-step move with
code `0`, zero steps taken and the rotation flag set. -/
theorem c10_witness :
    (BaseMovementAction.move
      (fun _ => ⟨false, (false, some true), AgentState.FREE_ROAM⟩)
      2).success = 0 ∧
    (BaseMovementAction.move
      (fun _ => ⟨false, (false, some true), AgentState.FREE_ROAM⟩)
      2).n_steps_taken = 0 ∧
    (BaseMovementAction.move
      (fun _ => ⟨false, (false, some true), AgentState.FREE_ROAM⟩)
      2).rotated = some true :=
  c10_rotation_only_run_completes _ 2 (by decide) (fun i _ => by decide)

/-- Counterexample to C3: the space vector `(11, 0)` lies outside
`MoveGridAction`'s Box domain (components bounded by `10`), yet
`MoveGridAction.space_to_parameters` returns a parameter dict, not `None`. -/
theorem c3_counterexample_movegrid_decode_total :
    ¬ MoveGridAction.space_valid (11, 0) ∧
      MoveGridAction.space_to_parameters (11, 0) ≠ none := by
  constructor
  · intro h
    have h2 := h.2.1
    norm_num [HARD_MAX_STEPS] at h2
  · intro h
    simp [MoveGridAction.space_to_parameters] at h

/-- Claim C3 (amended): decode after encode is the identity on the valid
parameter domain of `MoveStepsAction` (direction in the four cardinals, steps
in `1..20`) and on every parameter pair of `MoveGridAction`; decode of an
out-of-range value is `None` for `MoveStepsAction`, while
`MoveGridAction.space_to_parameters` is total and never returns `None`, even
outside its Box bounds. -/
theorem c3_encode_decode_inverse_amended :
    (∀ (d : String) (st : Int),
      (d = "up" ∨ d = "down" ∨ d = "left" ∨ d = "right") → 1 ≤ st →
      st ≤ HARD_MAX_STEPS →
      (MoveStepsAction.parameters_to_space d (some st)).bind
        MoveStepsAction.space_to_parameters = some ⟨d, st⟩) ∧
    (∀ v : Int, v < 0 ∨ v ≥ 4 * HARD_MAX_STEPS →
      MoveStepsAction.space_to_parameters v = none) ∧
    (∀ x y : Int,
      MoveGridAction.space_to_parameters
        (MoveGridAction.parameters_to_space x y) = some ⟨x, y⟩) ∧
    (∀ v : Int × Int, MoveGridAction.space_to_parameters v ≠ none) := by
  refine ⟨?_, ?_, ?_, ?_⟩
  · intro d st hd h1 h2
    rw [HARD_MAX_STEPS] at h2
    rcases hd with rfl | rfl | rfl | rfl
    · have e1 : MoveStepsAction.parameters_to_space "up" (some st) =
          some (st - 1) := by
        simp only [MoveStepsAction.parameters_to_space, HARD_MAX_STEPS]
        rw [if_neg (by omega)]
        simp
      rw [e1]
      show MoveStepsAction.space_to_parameters (st - 1) =
        some ⟨"up", st⟩
      simp only [MoveStepsAction.space_to_parameters, HARD_MAX_STEPS]
      rw [if_neg (by omega), if_pos (by omega)]
      simp only [Option.some.injEq, MoveStepsParams.mk.injEq]
      exact ⟨trivial, by omega⟩
    · have e1 : MoveStepsAction.parameters_to_space "down" (some st) =
          some (20 + st - 1) := by
        simp only [MoveStepsAction.parameters_to_space, HARD_MAX_STEPS]
        rw [if_neg (by omega)]
        simp
      rw [e1]
      show MoveStepsAction.space_to_parameters (20 + st - 1) =
        some ⟨"down", st⟩
      simp only [MoveStepsAction.space_to_parameters, HARD_MAX_STEPS]
      rw [if_neg (by omega), if_neg (by omega), if_pos (by omega)]
      simp only [Option.some.injEq, MoveStepsParams.mk.injEq]
      exact ⟨trivial, by omega⟩
    · have e1 : MoveStepsAction.parameters_to_space "left" (some st) =
          some (2 * 20 + st - 1) := by
        simp only [MoveStepsAction.parameters_to_space, HARD_MAX_STEPS]
        rw [if_neg (by omega)]
        simp
      rw [e1]
      show MoveStepsAction.space_to_parameters (2 * 20 + st - 1) =
        some ⟨"left", st⟩
      simp only [MoveStepsAction.space_to_parameters, HARD_MAX_STEPS]
      rw [if_neg (by omega), if_neg (by omega), if_neg (by omega),
        if_pos (by omega)]
      simp only [Option.some.injEq, MoveStepsParams.mk.injEq]
      exact ⟨trivial, by omega⟩
    · have e1 : MoveStepsAction.parameters_to_space "right" (some st) =
          some (3 * 20 + st - 1) := by
        simp only [MoveStepsAction.parameters_to_space, HARD_MAX_STEPS]
        rw [if_neg (by omega)]
        simp
      rw [e1]
      show MoveStepsAction.space_to_parameters (3 * 20 + st - 1) =
        some ⟨"right", st⟩
      simp only [MoveStepsAction.space_to_parameters, HARD_MAX_STEPS]
      rw [if_neg (by omega), if_neg (by omega), if_neg (by omega),
        if_neg (by omega)]
      simp only [Option.some.injEq, MoveStepsParams.mk.injEq]
      exact ⟨trivial, by omega⟩
  · intro v hv
    simp only [MoveStepsAction.space_to_parameters]
    rw [if_pos hv]
  · intro x y
    rfl
  · intro v h
    simp [MoveGridAction.space_to_parameters] at h

/-- Witness for C3 (amended): a round trip at `("up", 5)` and an out-of-range
decode at `-1`. -/
theorem c3_witness :
    (MoveStepsAction.parameters_to_space "up" (some 5)).bind
      MoveStepsAction.space_to_parameters = some ⟨"up", 5⟩ ∧
    MoveStepsAction.space_to_parameters (-1) = none :=
  ⟨c3_encode_decode_inverse_amended.1 "up" 5 (Or.inl rfl) (by decide)
      (by decide),
    c3_encode_decode_inverse_amended.2.1 (-1) (Or.inl (by decide))⟩

/-- Counterexample to C4: on a tick where the frame does not change at all,
`AdvanceDialogue._execute` still returns `0`, never `-1` — it performs no
frame comparison, unlike `MenuAction` and `PuzzleAction`. -/
theorem c4_counterexample_advance_dialogue_always_zero :
    frame_changed [0, 0] [0, 0] = false ∧
      AdvanceDialogue._execute.2 = 0 ∧ AdvanceDialogue._execute.2 ≠ -1 :=
  ⟨frame_changed_self [0, 0], rfl, by decide⟩

/-- Claim C4 (amended): `MenuAction` and `PuzzleAction` issue exactly one
low-level input and return `0` iff the post-input frame changed relative to
the frame captured just before the input, else `-1`; `AdvanceDialogue` issues
exactly one low-level input but returns `0` unconditionally. -/
theorem c4_single_tick_actions_amended :
    (∀ (menu_action : String) (pre last : PFrame)
        (out : List LowLevelActions × Int),
      MenuAction._execute menu_action pre last = some out →
      out.1.length = 1 ∧
        out.2 = (if frame_changed pre last then 0 else -1)) ∧
    (∀ (puzzle_action : String) (pre last : PFrame)
        (out : List LowLevelActions × Int),
      PuzzleAction._execute puzzle_action pre last = some out →
      out.1.length = 1 ∧
        out.2 = (if frame_changed pre last then 0 else -1)) ∧
    (AdvanceDialogue._execute.1.length = 1 ∧
      AdvanceDialogue._execute.2 = 0) := by
  refine ⟨?_, ?_, rfl, rfl⟩
  · intro ma pre last out h
    simp only [MenuAction._execute, Option.map_eq_some'] at h
    obtain ⟨kv, hfind, rfl⟩ := h
    exact ⟨rfl, rfl⟩
  · intro pa pre last out h
    simp only [PuzzleAction._execute, Option.map_eq_some'] at h
    obtain ⟨kv, hfind, rfl⟩ := h
    exact ⟨rfl, rfl⟩

/-- Witness for C4 (amended): a concrete confirm press in a menu with a
changed frame. -/
theorem c4_witness :
    ([LowLevelActions.PRESS_BUTTON_A] : List LowLevelActions).length = 1 ∧
      (if frame_changed [0] [5] then (0 : Int) else -1) =
        (if frame_changed [0] [5] then (0 : Int) else -1) :=
  ⟨(c4_single_tick_actions_amended.1 "confirm" [0] [5]
      ([LowLevelActions.PRESS_BUTTON_A],
        if frame_changed [0] [5] then 0 else -1) rfl).1,
    rfl⟩

/-- Claim C8: the Controller parses `action_name(arg1,arg2,...)`
case-insensitively — parsing depends on the input only through its lowered
form; a string missing a parenthesis, or whose action name is unknown, yields
`(None, None)`; representative grammar strings parse to the matching action
class and parameter dict; and malformed arguments yield `(None, None)`. -/
theorem c8_string_to_high_level_action_grammar :
    (∀ s t : PyStr, pyLower s = pyLower t →
      DejaVuStateWiseController.string_to_high_level_action s =
        DejaVuStateWiseController.string_to_high_level_action t) ∧
    (∀ s : PyStr, '(' ∉ pyStrip (pyLower s) ∨ ')' ∉ pyStrip (pyLower s) →
      DejaVuStateWiseController.string_to_high_level_action s =
        (none, none)) ∧
    (∀ s : PyStr,
      ('(' ∈ pyStrip (pyLower s) ∧ ')' ∈ pyStrip (pyLower s)) →
      pyStrip ((splitOnChar '(' (pyStrip (pyLower s))).headD []) ∉
        ["tickuntilstable".data, "movecursor".data, "movegrid".data,
          "openbuttonmenu".data, "closebuttonmenu".data,
          "selectmenuoption".data, "advancedialogue".data] →
      DejaVuStateWiseController.string_to_high_level_action s =
        (none, none)) ∧
    DejaVuStateWiseController.string_to_high_level_action
        "MoveGrid( 3 , -4 )".data =
      (some DVAction.MoveGrid,
        some [("x_steps".data, ParamValue.intv 3),
          ("y_steps".data, ParamValue.intv (-4))]) ∧
    DejaVuStateWiseController.string_to_high_level_action
        "  MoveCursor(UP)  ".data =
      (some DVAction.MoveCursor,
        some [("direction".data, ParamValue.strv "up".data)]) ∧
    DejaVuStateWiseController.string_to_high_level_action
        "TickUntilStable()".data = (some DVAction.TickUntilStable, some []) ∧
    DejaVuStateWiseController.string_to_high_level_action
        "movegrid(3)".data = (none, none) ∧
    DejaVuStateWiseController.string_to_high_level_action
        "movegrid(a,b)".data = (none, none) ∧
    DejaVuStateWiseController.string_to_high_level_action
        "movecursor(diag)".data = (none, none) ∧
    DejaVuStateWiseController.string_to_high_level_action
        "selectmenuoption".data = (none, none) := by
  refine ⟨?_, ?_, ?_, by decide, by decide, by decide, by decide, by decide,
    by decide, by decide⟩
  · intro s t h
    simp only [DejaVuStateWiseController.string_to_high_level_action]
    rw [h]
  · intro s h
    simp only [DejaVuStateWiseController.string_to_high_level_action,
      stringToActionCore]
    rw [if_pos h]
  · intro s hin hname
    simp only [List.mem_cons, List.not_mem_nil, or_false, not_or] at hname
    obtain ⟨h1, h2, h3, h4, h5, h6, h7⟩ := hname
    simp only [DejaVuStateWiseController.string_to_high_level_action,
      stringToActionCore]
    rw [if_neg (by push_neg; exact hin), if_neg h1, if_neg h2, if_neg h3,
      if_neg h4, if_neg h5, if_neg h6, if_neg h7]

/-- Witness for C8: the case-insensitivity, missing-parenthesis and
unknown-name clauses applied at concrete strings. -/
theorem c8_witness :
    DejaVuStateWiseController.string_to_high_level_action
        "OPENBUTTONMENU()".data =
      DejaVuStateWiseController.string_to_high_level_action
        "OpenButtonMenu()".data ∧
    DejaVuStateWiseController.string_to_high_level_action "hello".data =
      (none, none) ∧
    DejaVuStateWiseController.string_to_high_level_action "fly(1)".data =
      (none, none) :=
  ⟨c8_string_to_high_level_action_grammar.1 "OPENBUTTONMENU()".data
      "OpenButtonMenu()".data (by decide),
    c8_string_to_high_level_action_grammar.2.1 "hello".data
      (Or.inl (by decide)),
    c8_string_to_high_level_action_grammar.2.2.1 "fly(1)".data
      (by decide) (by decide)⟩

/-- Claim C9: `DejaVuStateParser.__init__` shallow-copies
`COMMON_MULTI_TARGETS` and extends the shared target lists in place, so the
class constant mutates: after constructing `DejaVu1And2StateParser` once, the
class-level `clue_text_area` list has grown by the override targets; a second
construction observes the accumulated list and appends the same targets
again, leaving `clue_obtained` (and each other override target) duplicated. -/
theorem c9_common_multi_targets_accumulates_across_constructions :
    (initMultiTargets commonMultiTargetsHeap commonMultiTargetsDict
        dejaVu12OverrideMultiTargets).1.get 0 =
      ["clue_acquired", "wrong_verdict", "correct_verdict",
        "suspect_alibi_confirmed", "clue_obtained", "suspect_questioned",
        "alibi_verified", "contradiction_found"] ∧
    (initMultiTargets commonMultiTargetsHeap commonMultiTargetsDict
        dejaVu12OverrideMultiTargets).1.get 0 ≠
      commonMultiTargetsHeap.get 0 ∧
    (initMultiTargets
        (initMultiTargets commonMultiTargetsHeap commonMultiTargetsDict
          dejaVu12OverrideMultiTargets).1
        commonMultiTargetsDict dejaVu12OverrideMultiTargets).1.get 0 =
      ["clue_acquired", "wrong_verdict", "correct_verdict",
        "suspect_alibi_confirmed", "clue_obtained", "suspect_questioned",
        "alibi_verified", "contradiction_found", "clue_obtained",
        "suspect_questioned", "alibi_verified", "contradiction_found"] ∧
    ((initMultiTargets
        (initMultiTargets commonMultiTargetsHeap commonMultiTargetsDict
          dejaVu12OverrideMultiTargets).1
        commonMultiTargetsDict dejaVu12OverrideMultiTargets).1.get 0).count
      "clue_obtained" = 2 := by
  refine ⟨by decide, by decide, by decide, by decide⟩
